import Mathlib

/-!
Verification development for the fairagro middleware (sql_to_arc and
inspire_to_arc pipelines).

Shallow embedding conventions:

* Python `int` counters are modelled as `Nat` (they are only ever
  incremented from 0) and database ids as `Int` or a tagged value type.
* Python `float` durations are modelled as `ℚ`; the `"%.2f"` rendering of
  CPython is modelled by rounding to hundredths (`formatTwoDecimals`).
* Python `None` is modelled by `Option`; Python truthiness of an optional
  string (`if x:`) is `pyTruthy` (false for `None` and for `""`).
* Python `datetime` values are modelled by their ISO-8601 rendering
  (the only operation the code performs on them is `.isoformat()`).
* Dictionaries are modelled by association lists; `dict.get(k, d)` has its
  usual lookup-with-default semantics.
-/

namespace FairagroMiddleware

/-- Truthiness of a Python optional string: `None` and `""` are falsy. -/
def pyTruthy : Option String → Bool
  | Option.none => false
  | some s => s ≠ ""

/-- Substring search on character lists: does `pat` occur (contiguously) in
`hay`? -/
def containsSub (hay pat : List Char) : Bool :=
  match hay with
  | [] => pat.isEmpty
  | _ :: t => pat.isPrefixOf hay || containsSub t pat

/-- Python `pat in s`: substring membership. -/
def strContains (s pat : String) : Bool :=
  containsSub s.toList pat.toList

/-- Python `s.lower()`, restricted to ASCII case mapping. -/
def pyLower (s : String) : String :=
  String.mk (s.toList.map Char.toLower)

/-- Python `s.strip()`: drop leading and trailing whitespace. -/
def pyStrip (s : String) : String :=
  String.mk
    (((s.toList.dropWhile Char.isWhitespace).reverse.dropWhile Char.isWhitespace).reverse)

namespace SqlToArc

/-- Model of `ProcessingStats` (src/middleware/sql_to_arc/main.py, lines 43-53):
counters for the conversion process. -/
structure ProcessingStats where
  foundDatasets : Nat := 0
  totalStudies : Nat := 0
  totalAssays : Nat := 0
  failedDatasets : Nat := 0
  failedIds : List String := []
  durationSeconds : ℚ := 0
deriving DecidableEq

/-- Model of `ProcessingStats.merge` (main.py lines 55-60): adds
`found_datasets` and `failed_datasets`, extends `failed_ids`; the comment in
the source notes that `total_studies`/`total_assays` are counted centrally
and not merged, and `duration_seconds` is not touched either. -/
def ProcessingStats.merge (a other : ProcessingStats) : ProcessingStats :=
  { a with
    foundDatasets := a.foundDatasets + other.foundDatasets
    failedDatasets := a.failedDatasets + other.failedDatasets
    failedIds := a.failedIds ++ other.failedIds }

/-- Minimal JSON value AST for the report document built by `to_jsonld`. -/
inductive JsonVal where
  | str (s : String)
  | num (q : ℚ)
  | arr (xs : List JsonVal)
  | obj (fields : List (String × JsonVal))

/-- Field lookup in a JSON object (Python dict access). -/
def jsonLookup (j : JsonVal) (k : String) : Option JsonVal :=
  match j with
  | .obj fields => (fields.find? (fun p => p.1 == k)).map (·.2)
  | _ => none

/-- Rounding of a rational to hundredths, modelling CPython `"%.2f"`
(the binary-float tie-breaking of CPython is abstracted to
round-half-up on exact rationals). -/
def round2 (q : ℚ) : Int := ⌊q * 100 + 1 / 2⌋

/-- Two-digit zero padding of the fractional part. -/
def padTwo (n : Nat) : String :=
  if n < 10 then "0" ++ toString n else toString n

/-- Rendering of a rational with two decimal digits, modelling the
`f"{x:.2f}"` conversion used for the ISO-8601 duration. -/
def formatTwoDecimals (q : ℚ) : String :=
  let n := round2 q
  if n < 0 then
    "-" ++ toString (n.natAbs / 100) ++ "." ++ padTwo (n.natAbs % 100)
  else
    toString (n.toNat / 100) ++ "." ++ padTwo (n.toNat % 100)

/-- Python `sorted` on a list of strings: ascending stable sort by the
lexicographic order on code points. -/
def sortStrings (xs : List String) : List String :=
  List.insertionSort (· ≤ ·) xs

/-- Model of `ProcessingStats.to_jsonld` (main.py lines 62-112): the JSON-LD
run report. `json.dumps` serialization is abstracted; the model returns the
document structure that is dumped. -/
def ProcessingStats.toJsonld (stats : ProcessingStats)
    (rdiIdentifier rdiUrl : Option String) : JsonVal :=
  let durationIso := "PT" ++ formatTwoDecimals stats.durationSeconds ++ "S"
  let context : JsonVal := .obj
    [ ("schema", .str "http://schema.org/")
    , ("prov", .str "http://www.w3.org/ns/prov#")
    , ("void", .str "http://rdfs.org/ns/void#")
    , ("xsd", .str "http://www.w3.org/2001/XMLSchema#")
    , ("duration", .obj [("@id", .str "schema:duration"), ("@type", .str "schema:Duration")])
    , ("failed_ids", .obj [("@id", .str "schema:error"), ("@container", .str "@set")])
    , ("status", .obj [("@id", .str "schema:actionStatus")])
    , ("found_datasets", .obj [("@id", .str "void:entities"), ("@type", .str "xsd:integer")])
    , ("total_studies", .obj [("@id", .str "schema:result"), ("@type", .str "xsd:integer")])
    , ("total_assays", .obj [("@id", .str "schema:result"), ("@type", .str "xsd:integer")]) ]
  let base : List (String × JsonVal) :=
    [ ("@context", context)
    , ("@type", .arr [.str "prov:Activity", .str "schema:CreateAction"])
    , ("schema:name", .str "SQL to ARC Conversion Run")
    , ("schema:instrument", .obj
        [ ("@type", .str "schema:SoftwareApplication")
        , ("schema:name", .str "FAIRagro Middleware SQL-to-ARC") ])
    , ("status", .str (if stats.failedDatasets = 0
        then "schema:CompletedActionStatus" else "schema:FailedActionStatus"))
    , ("duration", .str durationIso)
    , ("duration_seconds", .num ((round2 stats.durationSeconds : ℚ) / 100))
    , ("found_datasets", .num stats.foundDatasets)
    , ("total_studies", .num stats.totalStudies)
    , ("total_assays", .num stats.totalAssays)
    , ("failed_datasets", .num stats.failedDatasets)
    , ("failed_ids", .arr ((sortStrings stats.failedIds).map .str)) ]
  if pyTruthy rdiIdentifier && pyTruthy rdiUrl then
    .obj (base ++
      [ ("prov:used", .obj
          [ ("@id", .str (rdiUrl.getD ""))
          , ("@type", .str "schema:Organization")
          , ("schema:identifier", .str (rdiIdentifier.getD ""))
          , ("schema:name", .str ("Research Data Infrastructure: " ++ rdiIdentifier.getD "")) ]) ])
  else
    .obj base

/-- A Python value usable as a database `id` cell (integers in the schema,
but the code defends against strings via `str(row["id"])`). -/
inductive PyId where
  | int (n : Int)
  | str (s : String)
deriving DecidableEq

/-- Python `str(..)` applied to an id cell. -/
def PyId.render : PyId → String
  | .int n => toString n
  | .str s => s

/-- Model of the `DatasetContext` handed to `process_single_dataset`
(main.py lines 278-285): the investigation row is reduced to its id (the
only field the control flow reads), studies to their id list, and
`assays_by_study` to the per-study assay row count (the only thing the
counting logic uses; the full rows only flow opaquely into the build). -/
structure DatasetContext where
  invId : PyId
  studies : List Int
  assaysByStudy : List (Int × Nat)
deriving DecidableEq

/-- Python `dataset_ctx.assays_by_study.get(sid, [])` followed by `len`. -/
def assayCount (m : List (Int × Nat)) (sid : Int) : Nat :=
  ((m.find? (fun p => p.1 == sid)).map (·.2)).getD 0

/-- The `num_assays` computation of `process_single_dataset` (main.py
line 310): total assay rows over the dataset's studies. -/
def DatasetContext.numAssays (d : DatasetContext) : Nat :=
  (d.studies.map (assayCount d.assaysByStudy)).sum

/-- Outcome of the off-loaded `build_arc_for_investigation` call as observed
by `process_single_dataset`: wall-clock timeout, an empty/None JSON string,
a raised exception (caught by the surrounding handlers), or a built JSON
payload. -/
inductive BuildOutcome where
  | timeout
  | emptyResult
  | raised
  | built
deriving DecidableEq

/-- Outcome of `client.create_or_update_arc`: success, or a raised
`ApiClientError`/`psycopg.Error`/`OSError`/other exception (all of which are
caught by the handlers at main.py lines 396-403 and treated alike). -/
inductive UploadOutcome where
  | success
  | raisedError
deriving DecidableEq

/-- Result of one `process_single_dataset` call: the updated stats plus
whether the build was submitted to the executor and whether the HTTP
client's `create_or_update_arc` was called. -/
structure ProcResult where
  stats : ProcessingStats
  buildCalled : Bool
  uploadCalled : Bool
deriving DecidableEq

/-- The failure bookkeeping repeated at every `Failed` site of
`process_single_dataset`: increment `failed_datasets` and append
`str(investigation_row["id"])` to `failed_ids`. -/
def markFailed (fid : String) (s : ProcessingStats) : ProcessingStats :=
  { s with
    failedDatasets := s.failedDatasets + 1
    failedIds := s.failedIds ++ [fid] }

/-- Model of `process_single_dataset` (main.py lines 288-403). The async
build and upload steps are parametrized by their outcomes; the semaphore
only sequences execution and has no effect on the per-record state. Faithful
control-flow order: the study/assay counters are incremented first (lines
309-312), then the size-limit checks run (lines 322-342), then the build
(lines 346-371), then the upload (lines 380-403). -/
def processSingleDataset (maxStudies maxAssays : Nat) (d : DatasetContext)
    (b : BuildOutcome) (u : UploadOutcome) (stats : ProcessingStats) : ProcResult :=
  let numStudies := d.studies.length
  let numAssays := d.numAssays
  let s1 := { stats with
    totalStudies := stats.totalStudies + numStudies
    totalAssays := stats.totalAssays + numAssays }
  let fid := d.invId.render
  if numStudies > maxStudies then
    ⟨markFailed fid s1, false, false⟩
  else if numAssays > maxAssays then
    ⟨markFailed fid s1, false, false⟩
  else
    match b with
    | .timeout => ⟨markFailed fid s1, true, false⟩
    | .raised => ⟨markFailed fid s1, true, false⟩
    | .emptyResult => ⟨markFailed fid s1, true, false⟩
    | .built =>
      match u with
      | .success => ⟨s1, true, true⟩
      | .raisedError => ⟨markFailed fid s1, true, true⟩

/-- Events of the `process_investigations` scheduler loop (main.py lines
444-474), each recording the number of live (not yet completed) tasks at the
moment the event happens: `pull` is the completion of the stream's
`__anext__`, `waitDone` is the return of `asyncio.wait(...,
FIRST_COMPLETED)`, and `spawn` is `asyncio.create_task`. -/
inductive SchedEvent where
  | pull (live : Nat)
  | waitDone (live : Nat)
  | spawn (live : Nat)
deriving DecidableEq

/-- Model of the producer loop of `process_investigations` (main.py lines
448-469). Tasks complete only at await points; the completion schedule gives
for each pulled record the number `c` of tasks completing while the producer
awaits the next stream item and the number `w ≥ 1` effectively completing
inside `asyncio.wait(..., FIRST_COMPLETED)` (taken only when the backlog
check at line 454 fires). Completed tasks are discarded from the running set
by the done callback (line 469). -/
def schedulerLoop (maxTasks : Nat) : Nat → List (Nat × Nat) → List SchedEvent
  | _, [] => []
  | running, (c, w) :: rest =>
    let livePull := running - c
    if maxTasks ≤ livePull then
      let liveWait := livePull - max w 1
      SchedEvent.pull livePull :: SchedEvent.waitDone liveWait ::
        SchedEvent.spawn (liveWait + 1) ::
          schedulerLoop maxTasks (liveWait + 1) rest
    else
      SchedEvent.pull livePull :: SchedEvent.spawn (livePull + 1) ::
        schedulerLoop maxTasks (livePull + 1) rest

/-- Live-task count recorded in an event. -/
def SchedEvent.live : SchedEvent → Nat
  | .pull n => n
  | .waitDone n => n
  | .spawn n => n

end SqlToArc

namespace Harvester

/-- A Python attribute that should hold a string: absent/None, an actual
string, or some truthy non-string object (the harvester defends against the
latter with `isinstance` checks). -/
inductive PyStr where
  | none
  | str (s : String)
  | nonstr
deriving DecidableEq

/-- Claim-relevant part of OWSLib's `MD_DataIdentification`: the `title` and
`abstract` attributes read by `_extract_title`/`_extract_abstract`
(harvester.py lines 534-548). -/
structure MDIdentification where
  title : PyStr
  abstract : PyStr
deriving DecidableEq

/-- Claim-relevant part of OWSLib's `MD_Metadata`: the `identifier`
attribute (always either absent/None or a string in OWSLib, modelled as an
optional string) and the identification section; `_extract_identification`
(harvester.py lines 526-532) reduces the list-or-single-or-None attribute to
the first identification if any, which the `Option` captures. All remaining
attributes feed extraction helpers that never raise (harvester.py's
defensive `getattr` policy) and are omitted from the model. -/
structure MDMetadata where
  identifier : Option String
  identification : Option MDIdentification
deriving DecidableEq

/-- Errors raised while parsing one ISO record in the modelled fields: the
only raise sites in `_parse_iso_record`, `_extract_title` and
`_extract_abstract` are `SemanticError` (harvester.py lines 461-548). -/
inductive HarvestError where
  | semanticError (msg : String)
deriving DecidableEq

/-- Claim-relevant part of a parsed `InspireRecord` on the harvester side:
the fields whose extraction can raise. -/
structure ParsedRecord where
  identifier : String
  title : String
  abstract : String
deriving DecidableEq

/-- Model of `CSWClient._extract_title` (harvester.py lines 534-540). -/
def extractTitle (identification : Option MDIdentification) : Except HarvestError String :=
  match identification with
  | Option.none =>
    .error (.semanticError "Record is missing a title in its identification section.")
  | some ident =>
    match ident.title with
    | .none =>
      .error (.semanticError "Record is missing a title in its identification section.")
    | .nonstr => .error (.semanticError "Record title is not a string.")
    | .str s => .ok s

/-- Model of `CSWClient._extract_abstract` (harvester.py lines 542-548). -/
def extractAbstract (identification : Option MDIdentification) : Except HarvestError String :=
  match identification with
  | Option.none =>
    .error (.semanticError "Record is missing an abstract in its identification section.")
  | some ident =>
    match ident.abstract with
    | .none =>
      .error (.semanticError "Record is missing an abstract in its identification section.")
    | .nonstr => .error (.semanticError "Record abstract is not a string.")
    | .str s => .ok s

/-- Model of `CSWClient._parse_iso_record` (harvester.py lines 461-524)
restricted to the raising extractions: first the identifier validity check
(falsy or non-string identifier raises), then title, then abstract, in the
evaluation order of the `InspireRecord(...)` constructor call. -/
def parseIsoRecord (iso : MDMetadata) : Except HarvestError ParsedRecord :=
  if pyTruthy iso.identifier = false then
    .error (.semanticError "Record is missing a valid identifier (gmd:fileIdentifier).")
  else
    match extractTitle iso.identification with
    | .error e => .error e
    | .ok title =>
      match extractAbstract iso.identification with
      | .error e => .error e
      | .ok abs => .ok ⟨iso.identifier.getD "", title, abs⟩

/-- Model of `RecordProcessingError` (errors.py): the message and the record
id it carries. -/
structure RecordProcessingError where
  message : String
  recordId : String
deriving DecidableEq

/-- One item yielded by `_yield_records_with_stable_ids`, together with
whether the alignment-mismatch warning was logged for it. -/
structure YieldedItem where
  item : Sum ParsedRecord RecordProcessingError
  misalignmentWarned : Bool
deriving DecidableEq

/-- The stable id chosen at index `i`:
`dc_ids[i] if i < len(dc_ids) else owslib_id` (harvester.py line 395). -/
def stableIdFor (dcIds : List String) (i : Nat) (owslibId : String) : String :=
  (dcIds.get? i).getD owslibId

/-- The alignment check of harvester.py lines 398-409: if the ISO record
carries a truthy identifier that is not an OWSLib placeholder and differs
from the stable id, a mismatch warning is logged and the ISO identifier
replaces the stable id. -/
def alignedId (stableId : String) (iso : MDMetadata) : String × Bool :=
  match iso.identifier with
  | some isoId =>
    if isoId != "" && !(isoId.startsWith "owslib_random_") && isoId != stableId then
      (isoId, true)
    else
      (stableId, false)
  | Option.none => (stableId, false)

/-- The stable-id injection of harvester.py lines 412-414: if the metadata
is missing its own (truthy) identifier, the stable id is written into it. -/
def injectId (stableId : String) (iso : MDMetadata) : MDMetadata :=
  if pyTruthy iso.identifier then iso else { iso with identifier := some stableId }

/-- The body of the `for` loop of `_yield_records_with_stable_ids` for the
item at absolute index `i`: choose the stable id, run the alignment check,
inject the id if missing, parse, and turn a raised error into a yielded
`RecordProcessingError` carrying the stable id. -/
def processItem (dcIds : List String) (i : Nat) (owslibId : String)
    (iso : MDMetadata) : YieldedItem :=
  let stableId := stableIdFor dcIds i owslibId
  let aligned := alignedId stableId iso
  match parseIsoRecord (injectId aligned.1 iso) with
  | .ok r => ⟨Sum.inl r, aligned.2⟩
  | .error (.semanticError msg) => ⟨Sum.inr ⟨msg, aligned.1⟩, aligned.2⟩

/-- Model of `CSWClient._yield_records_with_stable_ids` (harvester.py lines
374-419): iterate over the fetched ISO items (all of class `MD_Metadata` in
the model) with their OWSLib dictionary keys, breaking once `records_yielded`
reaches `max_records`; only successfully parsed records increment the
yielded counter. -/
def yieldRecordsWithStableIds (dcIds : List String) (maxRecords : Nat) :
    Nat → Nat → List (String × MDMetadata) → List YieldedItem
  | _, _, [] => []
  | i, yielded, (owslibId, iso) :: rest =>
    if maxRecords ≤ yielded then []
    else
      let out := processItem dcIds i owslibId iso
      match out.item with
      | Sum.inl _ =>
        out :: yieldRecordsWithStableIds dcIds maxRecords (i + 1) (yielded + 1) rest
      | Sum.inr _ =>
        out :: yieldRecordsWithStableIds dcIds maxRecords (i + 1) yielded rest

/-- Number of items in a prefix that parse successfully (and hence increment
the `records_yielded` counter), starting at absolute index `i`. -/
def countOk (dcIds : List String) : Nat → List (String × MDMetadata) → Nat
  | _, [] => 0
  | i, (owslibId, iso) :: rest =>
    match (processItem dcIds i owslibId iso).item with
    | Sum.inl _ => 1 + countOk dcIds (i + 1) rest
    | Sum.inr _ => countOk dcIds (i + 1) rest

/-- The identifier carried by a yielded item: the parsed record's identifier
on success, the processing error's record id on failure. -/
def YieldedItem.carriedId (it : YieldedItem) : String :=
  match it.item with
  | Sum.inl r => r.identifier
  | Sum.inr e => e.recordId

/-- Classifier for the input shapes of claim C5: the identification section
is absent, or its title or abstract is missing or not a string. -/
def missingTitleOrAbstract (iso : MDMetadata) : Bool :=
  match iso.identification with
  | Option.none => true
  | some ident =>
    (match ident.title with
      | PyStr.str _ => false
      | _ => true) ||
    (match ident.abstract with
      | PyStr.str _ => false
      | _ => true)

end Harvester

namespace InspireMap

/-- Claim-relevant part of a harvester `Contact` as consumed by
`InspireMapper.map_person` (mapper.py lines 44-64): the name (required for a
Person to be produced) and the optional role. The other fields (email,
affiliation, address parts, ...) do not influence the publication logic. -/
structure Contact where
  name : Option String
  role : Option String
deriving DecidableEq

/-- Claim-relevant part of an arctrl `Person` produced by `map_person`:
first name, last name, and the role annotation names appended to
`person.Roles`. -/
structure Person where
  firstName : String
  lastName : String
  roles : List String
deriving DecidableEq

/-- Model of a `ResourceIdentifier` (harvester.py lines 18-23) as consumed
by `_add_publications`; the optional url field is unused there. -/
structure ResourceIdentifier where
  code : String
  codespace : Option String
deriving DecidableEq

/-- Claim-relevant part of an arctrl `Publication` created by
`_add_publications` (mapper.py lines 151-157). -/
structure Publication where
  title : String
  authors : Option String
  doi : String
deriving DecidableEq

/-- Claim-relevant part of an `InspireRecord` as consumed by
`map_investigation` and `_add_publications`: title, the four contact lists,
and the resource identifiers. -/
structure InspireRecord where
  title : String
  contacts : List Contact
  creators : List Contact
  publishers : List Contact
  contributors : List Contact
  resourceIdentifiers : List ResourceIdentifier
deriving DecidableEq

/-- Claim-relevant part of the `ArcInvestigation` built by
`map_investigation`: its contacts and publications. -/
structure ArcInvestigation where
  contacts : List Person
  publications : List Publication
deriving DecidableEq

/-- Model of `InspireMapper._split_name` (mapper.py lines 66-71): split on
single spaces; the last part is the last name, the rest re-joined is the
first name ("" for a single-part name). -/
def splitName (name : String) : String × String :=
  let nameParts := name.splitOn " "
  let lastName := (nameParts.getLast?).getD ""
  let firstName :=
    if nameParts.length > 1 then String.intercalate " " nameParts.dropLast else ""
  (firstName, lastName)

/-- Model of `InspireMapper.map_person` (mapper.py lines 44-64) restricted
to the claim-relevant fields: contacts without a truthy name are skipped;
`_add_role` appends the role annotation when the role is truthy. -/
def mapPerson (c : Contact) : Option Person :=
  if pyTruthy c.name = false then Option.none
  else
    let nm := splitName (c.name.getD "")
    let roles := if pyTruthy c.role then [c.role.getD ""] else []
    some ⟨nm.1, nm.2, roles⟩

/-- Model of `InspireMapper._add_contacts` (mapper.py lines 123-132): the
persons appended to the investigation, in order, from
`contacts ++ creators ++ publishers ++ contributors`, skipping contacts
without a name. -/
def addContacts (record : InspireRecord) : List Person :=
  ((record.contacts ++ record.creators ++ record.publishers ++ record.contributors).map
    mapPerson).reduceOption

/-- The author-entry string built in `_add_publications` (mapper.py lines
141-143): last name, comma, and the first initial followed by a period when
the person has a non-empty first name. -/
def authorEntry (p : Person) : String :=
  let firstInitial := if p.firstName ≠ "" then p.firstName.take 1 ++ "." else ""
  p.lastName ++ ", " ++ firstInitial

/-- The authors string of `_add_publications` (mapper.py lines 137-144):
entries over the investigation's contacts carrying a role named "author",
joined by "; ", or `None` when there are no such contacts. -/
def authorsStringOf (contacts : List Person) : Option String :=
  let authorsList := contacts.filter (fun p => p.roles.contains "author")
  let authorStrings := authorsList.map authorEntry
  if authorStrings.isEmpty then Option.none
  else some (String.intercalate "; " authorStrings)

/-- The publication filter of `_add_publications` (mapper.py lines 146-150):
a truthy code that starts with "10." or contains "doi" case-insensitively,
or a codespace containing "isbn" case-insensitively. `str(codespace) if
codespace else ""` reduces to `getD ""` for an optional string. -/
def publicationCondition (rid : ResourceIdentifier) : Bool :=
  rid.code != "" &&
    (rid.code.startsWith "10." || strContains (pyLower rid.code) "doi" ||
      strContains (pyLower (rid.codespace.getD "")) "isbn")

/-- Model of `InspireMapper._add_publications` (mapper.py lines 134-158):
one publication appended per resource identifier passing the condition,
carrying the record title, the authors string, and the code as DOI. -/
def addPublications (record : InspireRecord) (contacts : List Person) : List Publication :=
  let authorsStr := authorsStringOf contacts
  record.resourceIdentifiers.foldl
    (fun acc rid =>
      if publicationCondition rid then
        acc ++ [⟨record.title, authorsStr, rid.code⟩]
      else acc)
    []

/-- Model of `InspireMapper.map_investigation` (mapper.py lines 106-121)
restricted to contacts and publications (identifier, title, description,
dates and comments do not interact with them). -/
def mapInvestigation (record : InspireRecord) : ArcInvestigation :=
  let contacts := addContacts record
  let publications := addPublications record contacts
  ⟨contacts, publications⟩

end InspireMap

namespace SqlMap

/-- A database cell for a text column: the key may be absent from the row
dict, present with `None`, or present with a string. -/
inductive TextCell where
  | absent
  | null
  | text (s : String)
deriving DecidableEq

/-- Python `row.get(key, "")`: the default fires only when the key is
absent; an explicit `None` value is passed through. -/
def TextCell.getOrEmpty : TextCell → Option String
  | .absent => some ""
  | .null => Option.none
  | .text s => some s

/-- Model of an `ARC_Investigation` row as consumed by `map_investigation`
(sql_to_arc/mapper.py lines 17-41). `id` covers both an absent key and SQL
NULL by `Option.none` (the code only uses `row.get("id")`); datetime cells
are modelled by their ISO-8601 rendering, `Option.none` for NULL/absent. -/
structure InvestigationRow where
  id : Option SqlToArc.PyId
  title : TextCell
  description : TextCell
  submissionTime : Option String
  releaseTime : Option String
deriving DecidableEq

/-- Claim-relevant part of the `ArcInvestigation` returned by
`ArcInvestigation.create` in `map_investigation`. -/
structure ArcInvestigationRow where
  identifier : String
  title : Option String
  description : Option String
  submissionDate : Option String
  publicReleaseDate : Option String
deriving DecidableEq

/-- Model of `map_investigation` (sql_to_arc/mapper.py lines 17-41):
dates are rendered with `.isoformat()` when the cell is truthy (a datetime
always is) and `None` otherwise; the identifier is `str(row["id"])` when
`row.get("id")` is not `None`, else `""`; an identifier that is empty after
stripping raises `ValueError`. -/
def mapInvestigation (row : InvestigationRow) : Except String ArcInvestigationRow :=
  let submissionDate := row.submissionTime
  let publicReleaseDate := row.releaseTime
  let identifier :=
    match row.id with
    | some v => v.render
    | Option.none => ""
  if pyStrip identifier = "" then
    .error "Investigation ID cannot be empty"
  else
    .ok ⟨identifier, row.title.getOrEmpty, row.description.getOrEmpty,
      submissionDate, publicReleaseDate⟩

end SqlMap

namespace Cli

/-- Outcome of the startup phase of `sql_to_arc.main` (main.py lines
515-530): configuration loading and tracing initialization. The three
exception classes `FileNotFoundError`, `IsADirectoryError` and
`ValidationError` are caught, logged, and make `main` return normally; any
other exception escaping startup propagates out of `asyncio.run` and makes
the interpreter exit non-zero. -/
inductive StartupOutcome where
  | ok
  | fileNotFound
  | isADirectory
  | validationError
  | uncaughtStartupError
deriving DecidableEq

/-- Outcome of `run_conversion` (main.py lines 535-560): normal completion
(possibly with per-record failures counted in the stats), or any raised
exception — including database connection failures — caught by the
`except Exception` handler at line 559, logged, and swallowed. -/
inductive ConversionOutcome where
  | completed
  | raised
deriving DecidableEq

/-- Model of the process exit code of the `sql_to_arc` CLI (main.py lines
504-565): the version flag calls `sys.exit(0)`; caught startup errors
return normally (exit 0); conversion errors are swallowed (exit 0); only an
exception escaping startup outside the caught classes yields the
interpreter's non-zero exit. -/
def mainExitCode (versionFlag : Bool) (startup : StartupOutcome)
    (conversion : ConversionOutcome) : Nat :=
  if versionFlag then 0
  else
    match startup with
    | .fileNotFound => 0
    | .isADirectory => 0
    | .validationError => 0
    | .uncaughtStartupError => 1
    | .ok =>
      match conversion with
      | .completed => 0
      | .raised => 0

end Cli

/-! ## Helper lemmas shared by the claim theorems -/

open SqlToArc Harvester InspireMap SqlMap Cli

/-- A conditional-append left fold (the Python append-in-a-loop idiom)
equals filtering followed by mapping. -/
theorem foldl_cond_append {α β : Type} (p : α → Bool) (f : α → β) :
    ∀ (xs : List α) (acc : List β),
      xs.foldl (fun a x => if p x then a ++ [f x] else a) acc
        = acc ++ (xs.filter p).map f := by
  intro xs
  induction xs with
  | nil => intro acc; simp
  | cons x rest ih =>
    intro acc
    by_cases hx : p x
    · simp [List.foldl_cons, hx, ih, List.filter_cons]
    · simp [List.foldl_cons, hx, ih, List.filter_cons]

/-- `countOk` distributes over list append, shifting the index base. -/
theorem countOk_append (dcIds : List String) :
    ∀ (xs ys : List (String × MDMetadata)) (i0 : Nat),
      countOk dcIds i0 (xs ++ ys)
        = countOk dcIds i0 xs + countOk dcIds (i0 + xs.length) ys := by
  intro xs
  induction xs with
  | nil => intro ys i0; simp [countOk]
  | cons x rest ih =>
    intro ys i0
    obtain ⟨ows, iso⟩ := x
    simp only [List.cons_append, countOk]
    cases h : (processItem dcIds i0 ows iso).item <;>
      simp [h, ih, Nat.add_assoc, Nat.add_comm, Nat.add_left_comm, List.length_cons]

/-- The item that `_yield_records_with_stable_ids` emits at position
`pre.length` is the processed item at absolute index `i0 + pre.length`,
provided fewer than `max_records` records were successfully yielded over the
prefix. -/
theorem yieldRecords_get_middle (dcIds : List String) (maxRecords : Nat) :
    ∀ (pre : List (String × MDMetadata)) (i0 y0 : Nat)
      (x : String × MDMetadata) (post : List (String × MDMetadata)),
      y0 + countOk dcIds i0 pre < maxRecords →
      (yieldRecordsWithStableIds dcIds maxRecords i0 y0 (pre ++ x :: post)).get? pre.length
        = some (processItem dcIds (i0 + pre.length) x.1 x.2) := by
  intro pre
  induction pre with
  | nil =>
    intro i0 y0 x post h
    obtain ⟨ows, iso⟩ := x
    simp only [countOk, Nat.add_zero] at h
    simp only [List.nil_append, List.length_nil]
    unfold yieldRecordsWithStableIds
    rw [if_neg (by omega)]
    cases hout : (processItem dcIds i0 ows iso).item <;> simp [hout]
  | cons p rest ih =>
    intro i0 y0 x post h
    obtain ⟨pows, piso⟩ := p
    simp only [countOk] at h
    have hy0 : ¬ maxRecords ≤ y0 := by
      cases hp : (processItem dcIds i0 pows piso).item <;> rw [hp] at h <;> omega
    simp only [List.cons_append, List.length_cons]
    unfold yieldRecordsWithStableIds
    rw [if_neg hy0]
    cases hp : (processItem dcIds i0 pows piso).item with
    | inl r =>
      simp only [hp] at h
      simp only [hp, List.get?_cons_succ]
      have := ih (i0 + 1) (y0 + 1) x post (by omega)
      rw [this]
      have harith : i0 + 1 + rest.length = i0 + (rest.length + 1) := by omega
      rw [harith]
    | inr e =>
      simp only [hp] at h
      simp only [hp, List.get?_cons_succ]
      have := ih (i0 + 1) y0 x post (by omega)
      rw [this]
      have harith : i0 + 1 + rest.length = i0 + (rest.length + 1) := by omega
      rw [harith]

/-! ## Claim theorems -/

/-- C10: for all `ProcessingStats` values `a` and `b`, `a.merge b` adds
`b.found_datasets` and `b.failed_datasets` onto `a`'s counters and appends
`b.failed_ids` to `a.failed_ids`, while leaving `a.total_studies`,
`a.total_assays` and `a.duration_seconds` unchanged. -/
theorem C10_merge_frame (a b : ProcessingStats) :
    (a.merge b).foundDatasets = a.foundDatasets + b.foundDatasets ∧
    (a.merge b).failedDatasets = a.failedDatasets + b.failedDatasets ∧
    (a.merge b).failedIds = a.failedIds ++ b.failedIds ∧
    (a.merge b).totalStudies = a.totalStudies ∧
    (a.merge b).totalAssays = a.totalAssays ∧
    (a.merge b).durationSeconds = a.durationSeconds :=
  ⟨rfl, rfl, rfl, rfl, rfl, rfl⟩

/-- C2: for every `ProcessingStats` value and optional rdi identifier and
url, `to_jsonld` produces a document whose `status` field is
`schema:CompletedActionStatus` exactly when `failed_datasets = 0` and
`schema:FailedActionStatus` otherwise, whose `duration` field is
`"PT" ++ <duration with two decimals> ++ "S"`, whose `failed_ids` field is
the sorted (ascending, a permutation of the original) failed-id list, and
which contains a `prov:used` node iff both rdi identifier and url are
provided and non-empty. -/
theorem C2_to_jsonld_report (stats : ProcessingStats) (rdiIdentifier rdiUrl : Option String) :
    jsonLookup (stats.toJsonld rdiIdentifier rdiUrl) "status"
        = some (.str (if stats.failedDatasets = 0
            then "schema:CompletedActionStatus" else "schema:FailedActionStatus")) ∧
    jsonLookup (stats.toJsonld rdiIdentifier rdiUrl) "duration"
        = some (.str ("PT" ++ formatTwoDecimals stats.durationSeconds ++ "S")) ∧
    jsonLookup (stats.toJsonld rdiIdentifier rdiUrl) "failed_ids"
        = some (.arr ((sortStrings stats.failedIds).map .str)) ∧
    List.Sorted (· ≤ ·) (sortStrings stats.failedIds) ∧
    List.Perm (sortStrings stats.failedIds) stats.failedIds ∧
    ((jsonLookup (stats.toJsonld rdiIdentifier rdiUrl) "prov:used").isSome
        ↔ (pyTruthy rdiIdentifier = true ∧ pyTruthy rdiUrl = true)) := by
  cases hi : pyTruthy rdiIdentifier <;> cases hu : pyTruthy rdiUrl <;>
    refine ⟨?_, ?_, ?_, List.sorted_insertionSort _ _, List.perm_insertionSort _ _, ?_⟩ <;>
    simp [ProcessingStats.toJsonld, jsonLookup, hi, hu]

/-- C9 counterexample: with no version flag, a configuration error of the
caught kind (`FileNotFoundError` while loading the config file) makes the
`sql_to_arc` CLI log the error and return normally — the process exit code
is 0, not the non-zero exit code the claim requires for configuration
errors. -/
theorem C9_counterexample :
    mainExitCode false StartupOutcome.fileNotFound ConversionOutcome.completed = 0 := rfl

/-- C9 (amended): the `sql_to_arc` CLI exits 0 on normal termination even
when records failed, and also exits 0 on the caught configuration errors
(missing config file, directory path, validation error) and on every
conversion-time error including infrastructure failures such as a failed
database connection; the exit code is non-zero exactly when an exception
escapes the startup phase outside the three caught classes. -/
theorem C9_exit_code_amended (versionFlag : Bool) (startup : StartupOutcome)
    (conversion : ConversionOutcome) :
    mainExitCode versionFlag startup conversion = 0
      ↔ (versionFlag = true ∨ startup ≠ StartupOutcome.uncaughtStartupError) := by
  cases versionFlag <;> cases startup <;> cases conversion <;> simp [mainExitCode]

/-- C1 counterexample: a dataset with two studies under `max_studies = 1`
fails validation, so its id is appended to `failed_ids`, and yet its two
studies were already counted into `total_studies` (the counters are
incremented at main.py lines 311-312, before any failure path) — the record
both contributes to the study/assay counters and appears in `failed_ids`,
contradicting the claimed exclusivity. -/
theorem C1_counterexample :
    (processSingleDataset 1 10 ⟨.str "7", [1, 2], []⟩ .built .success {}).stats.totalStudies = 2 ∧
    (processSingleDataset 1 10 ⟨.str "7", [1, 2], []⟩ .built .success {}).stats.failedIds = ["7"] ∧
    (processSingleDataset 1 10 ⟨.str "7", [1, 2], []⟩ .built .success {}).uploadCalled = false :=
  ⟨rfl, rfl, rfl⟩

/-- C1 (amended): for every record, `total_studies`/`total_assays` are
incremented by the record's study and assay counts regardless of the
outcome; beyond that, exactly one of the following holds: the upload
succeeded and the failure bookkeeping is untouched, or the record's id is
appended (once) to `failed_ids` and `failed_datasets` is incremented. The
claimed exclusivity between counter contribution and failure does not hold;
only the success/failure dichotomy does. -/
theorem C1_outcome_dichotomy (maxStudies maxAssays : Nat) (d : DatasetContext)
    (b : BuildOutcome) (u : UploadOutcome) (stats : ProcessingStats) :
    (processSingleDataset maxStudies maxAssays d b u stats).stats.totalStudies
        = stats.totalStudies + d.studies.length ∧
    (processSingleDataset maxStudies maxAssays d b u stats).stats.totalAssays
        = stats.totalAssays + d.numAssays ∧
    (((processSingleDataset maxStudies maxAssays d b u stats).uploadCalled = true ∧
        u = UploadOutcome.success ∧
        (processSingleDataset maxStudies maxAssays d b u stats).stats.failedIds
          = stats.failedIds ∧
        (processSingleDataset maxStudies maxAssays d b u stats).stats.failedDatasets
          = stats.failedDatasets) ∨
      ((processSingleDataset maxStudies maxAssays d b u stats).stats.failedIds
          = stats.failedIds ++ [d.invId.render] ∧
        (processSingleDataset maxStudies maxAssays d b u stats).stats.failedDatasets
          = stats.failedDatasets + 1)) := by
  by_cases h1 : d.studies.length > maxStudies
  · refine ⟨?_, ?_, Or.inr ⟨?_, ?_⟩⟩ <;>
      simp [processSingleDataset, markFailed, h1]
  · by_cases h2 : d.numAssays > maxAssays
    · refine ⟨?_, ?_, Or.inr ⟨?_, ?_⟩⟩ <;>
        simp [processSingleDataset, markFailed, h1, h2]
    · cases b with
      | timeout =>
        refine ⟨?_, ?_, Or.inr ⟨?_, ?_⟩⟩ <;>
          simp [processSingleDataset, markFailed, h1, h2]
      | emptyResult =>
        refine ⟨?_, ?_, Or.inr ⟨?_, ?_⟩⟩ <;>
          simp [processSingleDataset, markFailed, h1, h2]
      | raised =>
        refine ⟨?_, ?_, Or.inr ⟨?_, ?_⟩⟩ <;>
          simp [processSingleDataset, markFailed, h1, h2]
      | built =>
        cases u with
        | success =>
          refine ⟨?_, ?_, Or.inl ⟨?_, rfl, ?_, ?_⟩⟩ <;>
            simp [processSingleDataset, h1, h2]
        | raisedError =>
          refine ⟨?_, ?_, Or.inr ⟨?_, ?_⟩⟩ <;>
            simp [processSingleDataset, markFailed, h1, h2]

/-- Injecting a stable id leaves the identification section unchanged, so
the C5 input classifier is insensitive to it. -/
theorem missingTitleOrAbstract_injectId (s : String) (iso : MDMetadata) :
    missingTitleOrAbstract (injectId s iso) = missingTitleOrAbstract iso := by
  unfold injectId
  split <;> rfl

/-- A record whose identification section is missing a title or an abstract
(or holds a non-string one) fails to parse, and the raised error is a
`SemanticError` — whatever its identifier holds. -/
theorem parseIsoRecord_semanticError (iso : MDMetadata)
    (hbad : missingTitleOrAbstract iso = true) :
    ∃ msg, parseIsoRecord iso = Except.error (HarvestError.semanticError msg) := by
  unfold parseIsoRecord
  by_cases hid : pyTruthy iso.identifier = false
  · rw [if_pos hid]
    exact ⟨_, rfl⟩
  · rw [if_neg hid]
    unfold missingTitleOrAbstract at hbad
    cases hident : iso.identification with
    | none =>
      refine ⟨"Record is missing a title in its identification section.", ?_⟩
      simp [extractTitle]
    | some ident =>
      simp only [hident] at hbad
      cases ht : ident.title with
      | str s =>
        cases ha : ident.abstract with
        | str s2 => simp only [ht, ha] at hbad; simp at hbad
        | none =>
          refine ⟨"Record is missing an abstract in its identification section.", ?_⟩
          simp [extractTitle, extractAbstract, ht, ha]
        | nonstr =>
          refine ⟨"Record abstract is not a string.", ?_⟩
          simp [extractTitle, extractAbstract, ht, ha]
      | none =>
        refine ⟨"Record is missing a title in its identification section.", ?_⟩
        simp [extractTitle, ht]
      | nonstr =>
        refine ⟨"Record title is not a string.", ?_⟩
        simp [extractTitle, ht]

/-- A successfully parsed record carries the metadata's own identifier. -/
theorem parseIsoRecord_ok_identifier (iso : MDMetadata) (r : ParsedRecord)
    (h : parseIsoRecord iso = Except.ok r) : r.identifier = iso.identifier.getD "" := by
  unfold parseIsoRecord at h
  by_cases hid : pyTruthy iso.identifier = false
  · rw [if_pos hid] at h
    cases h
  · rw [if_neg hid] at h
    cases hT : extractTitle iso.identification with
    | error e =>
      simp only [hT] at h
      cases h
    | ok t =>
      cases hA : extractAbstract iso.identification with
      | error e =>
        simp only [hT, hA] at h
        cases h
      | ok a =>
        simp only [hT, hA] at h
        cases h
        rfl

/-- C3: a dataset whose study count exceeds `max_studies` or whose total
assay count exceeds `max_assays` is marked failed (incrementing
`failed_datasets` and appending its id to `failed_ids`) with neither build
nor upload; a dataset with exactly `max_studies` studies and exactly
`max_assays` assays passes validation and proceeds to the build step. -/
theorem C3_size_limit_validation (maxStudies maxAssays : Nat) (d : DatasetContext)
    (b : BuildOutcome) (u : UploadOutcome) (stats : ProcessingStats) :
    ((d.studies.length > maxStudies ∨ d.numAssays > maxAssays) →
      (processSingleDataset maxStudies maxAssays d b u stats).stats.failedDatasets
          = stats.failedDatasets + 1 ∧
      (processSingleDataset maxStudies maxAssays d b u stats).stats.failedIds
          = stats.failedIds ++ [d.invId.render] ∧
      (processSingleDataset maxStudies maxAssays d b u stats).buildCalled = false ∧
      (processSingleDataset maxStudies maxAssays d b u stats).uploadCalled = false) ∧
    (d.studies.length = maxStudies → d.numAssays = maxAssays →
      (processSingleDataset maxStudies maxAssays d b u stats).buildCalled = true) := by
  constructor
  · intro hover
    by_cases h1 : d.studies.length > maxStudies
    · refine ⟨?_, ?_, ?_, ?_⟩ <;> simp [processSingleDataset, markFailed, h1]
    · have h2 : d.numAssays > maxAssays := by
        rcases hover with h | h
        · exact absurd h h1
        · exact h
      refine ⟨?_, ?_, ?_, ?_⟩ <;> simp [processSingleDataset, markFailed, h1, h2]
  · intro hs ha
    have h1 : ¬ d.studies.length > maxStudies := by omega
    have h2 : ¬ d.numAssays > maxAssays := by omega
    cases b <;> cases u <;> simp [processSingleDataset, h1, h2]

/-- C3 witness: under `max_studies = 1`, a dataset with two studies is
marked failed with no build and no upload, and a dataset with exactly one
study and exactly zero assays (at `max_assays = 0`) proceeds to the build
step. -/
theorem C3_size_limit_validation_witness :
    ((processSingleDataset 1 10 ⟨.str "5", [1, 2], []⟩ .built .success {}).stats.failedDatasets
        = 0 + 1 ∧
      (processSingleDataset 1 10 ⟨.str "5", [1, 2], []⟩ .built .success {}).stats.failedIds
        = [] ++ ["5"] ∧
      (processSingleDataset 1 10 ⟨.str "5", [1, 2], []⟩ .built .success {}).buildCalled = false ∧
      (processSingleDataset 1 10 ⟨.str "5", [1, 2], []⟩ .built .success {}).uploadCalled = false) ∧
    (processSingleDataset 1 0 ⟨.str "6", [1], []⟩ .built .success {}).buildCalled = true :=
  ⟨(C3_size_limit_validation 1 10 ⟨.str "5", [1, 2], []⟩ .built .success {}).1
      (Or.inl (by decide)),
    (C3_size_limit_validation 1 0 ⟨.str "6", [1], []⟩ .built .success {}).2 rfl rfl⟩

/-- C4 counterexample: with `max_concurrent_tasks = 1` and a two-record
stream during which no task completes on its own, the scheduler's trace is
`pull 0, spawn 1, pull 1, waitDone 0, spawn 1`: the second `pull` happens
while the running-task set is already at the maximum (live = 1) and before
any wait — the producer pulls first and only then waits (main.py lines
448-455), contradicting the claim that it waits before pulling. -/
theorem C4_counterexample :
    schedulerLoop 1 0 [(0, 1), (0, 1)] =
      [SchedEvent.pull 0, SchedEvent.spawn 1, SchedEvent.pull 1,
        SchedEvent.waitDone 0, SchedEvent.spawn 1] := rfl

/-- C4 (amended): the backpressure wait happens after each pull and before
the pulled record's task is spawned: whenever the running-task set has
reached `max_concurrent_tasks`, the producer waits for at least one
completion before spawning the next task (so at most one pulled record is
held un-spawned); consequently, for `max_concurrent_tasks ≥ 1`, the number
of live tasks at every event of the scheduler loop never exceeds
`max_concurrent_tasks`. -/
theorem C4_live_tasks_bounded (maxTasks running : Nat) (schedule : List (Nat × Nat))
    (hmax : 1 ≤ maxTasks) (hrun : running ≤ maxTasks) :
    ∀ e ∈ schedulerLoop maxTasks running schedule, e.live ≤ maxTasks := by
  induction schedule generalizing running with
  | nil => intro e he; simp [schedulerLoop] at he
  | cons cw rest ih =>
    obtain ⟨c, w⟩ := cw
    intro e he
    simp only [schedulerLoop] at he
    by_cases hfull : maxTasks ≤ running - c
    · rw [if_pos hfull] at he
      simp only [List.mem_cons] at he
      have hlive : running - c ≤ maxTasks := by omega
      have hwait : running - c - max w 1 ≤ maxTasks - 1 := by
        have hw1 : 1 ≤ max w 1 := le_max_right w 1
        omega
      rcases he with rfl | rfl | rfl | hmem
      · exact hlive
      · simpa [SchedEvent.live] using le_trans hwait (Nat.sub_le _ _)
      · simp only [SchedEvent.live]
        omega
      · exact ih (running - c - max w 1 + 1) (by omega) e hmem
    · rw [if_neg hfull] at he
      simp only [List.mem_cons] at he
      rcases he with rfl | rfl | hmem
      · simp only [SchedEvent.live]; omega
      · simp only [SchedEvent.live]; omega
      · exact ih (running - c + 1) (by omega) e hmem

/-- C4 witness: applying the bound at `max_concurrent_tasks = 2` with an
empty-starting running set and a three-record schedule, to the `spawn 2`
event of the resulting trace. -/
theorem C4_live_tasks_bounded_witness :
    SchedEvent.live (SchedEvent.spawn 2) ≤ 2 :=
  C4_live_tasks_bounded 2 0 [(0, 1), (0, 1), (0, 1)] (by decide) (by decide)
    (SchedEvent.spawn 2) (by decide)

/-- C5: an ISO record whose identification section is missing a title or an
abstract (or holds a non-string one) makes `_parse_iso_record` raise a
`SemanticError`; `_yield_records_with_stable_ids` catches it and yields a
`RecordProcessingError` carrying the record's (stable/aligned) identifier in
its place, and then continues with the next record instead of raising. -/
theorem C5_semantic_error_isolated (dcIds : List String) (maxRecords i0 y0 : Nat)
    (pre post : List (String × MDMetadata)) (owslibId : String) (iso : MDMetadata)
    (hbad : missingTitleOrAbstract iso = true)
    (hroom : y0 + countOk dcIds i0 pre < maxRecords) :
    (∃ msg,
      parseIsoRecord
          (injectId (alignedId (stableIdFor dcIds (i0 + pre.length) owslibId) iso).1 iso)
        = Except.error (HarvestError.semanticError msg)) ∧
    (∃ msg,
      (yieldRecordsWithStableIds dcIds maxRecords i0 y0
          (pre ++ (owslibId, iso) :: post)).get? pre.length
        = some ⟨Sum.inr ⟨msg, (alignedId (stableIdFor dcIds (i0 + pre.length) owslibId) iso).1⟩,
            (alignedId (stableIdFor dcIds (i0 + pre.length) owslibId) iso).2⟩) ∧
    (∀ q qs, post = q :: qs →
      (yieldRecordsWithStableIds dcIds maxRecords i0 y0
          (pre ++ (owslibId, iso) :: post)).get? (pre.length + 1)
        = some (processItem dcIds (i0 + pre.length + 1) q.1 q.2)) := by
  obtain ⟨msg, hmsg⟩ :=
    parseIsoRecord_semanticError
      (injectId (alignedId (stableIdFor dcIds (i0 + pre.length) owslibId) iso).1 iso)
      (by rw [missingTitleOrAbstract_injectId]; exact hbad)
  have hitem : processItem dcIds (i0 + pre.length) owslibId iso
      = ⟨Sum.inr ⟨msg, (alignedId (stableIdFor dcIds (i0 + pre.length) owslibId) iso).1⟩,
          (alignedId (stableIdFor dcIds (i0 + pre.length) owslibId) iso).2⟩ := by
    simp [processItem, hmsg]
  refine ⟨⟨msg, hmsg⟩, ⟨msg, ?_⟩, ?_⟩
  · rw [yieldRecords_get_middle dcIds maxRecords pre i0 y0 (owslibId, iso) post hroom]
    rw [hitem]
  · intro q qs hpost
    subst hpost
    have hre : pre ++ (owslibId, iso) :: q :: qs = (pre ++ [(owslibId, iso)]) ++ q :: qs := by
      simp
    have hcount : countOk dcIds i0 (pre ++ [(owslibId, iso)]) = countOk dcIds i0 pre := by
      rw [countOk_append]
      have hz : countOk dcIds (i0 + pre.length) [(owslibId, iso)] = 0 := by
        simp only [countOk, hitem]
      omega
    have hmid := yieldRecords_get_middle dcIds maxRecords (pre ++ [(owslibId, iso)]) i0 y0
      q qs (by rw [hcount]; exact hroom)
    rw [hre]
    have hlen : (pre ++ [(owslibId, iso)]).length = pre.length + 1 := by simp
    rw [hlen] at hmid
    rw [hmid]
    have harith : i0 + (pre.length + 1) = i0 + pre.length + 1 := by omega
    rw [harith]

/-- C5 witness: a one-record page whose ISO record has identifier "id1" but
no identification section at all; with DC ids `["a"]` the yielded item at
index 0 is a `RecordProcessingError` carrying "id1" (the ISO id wins the
alignment check), with the misalignment warning logged. -/
theorem C5_semantic_error_isolated_witness :
    ∃ msg,
      (yieldRecordsWithStableIds ["a"] 10 0 0 [("x", ⟨some "id1", Option.none⟩)]).get? 0
        = some ⟨Sum.inr ⟨msg, "id1"⟩, true⟩ :=
  (C5_semantic_error_isolated ["a"] 10 0 0 [] [] "x" ⟨some "id1", Option.none⟩
    rfl (by decide)).2.1

/-- C6: when the ISO record at index `i` carries its own identifier that is
not an `owslib_random_` placeholder and differs from the Dublin Core
identifier at index `i`, the misalignment warning is logged and the item
yielded at index `i` carries the ISO identifier, not the DC identifier;
when the ISO record has no identifier of its own, the DC identifier at
index `i` is used (and no warning is logged). -/
theorem C6_alignment_prefers_iso_id (dcIds : List String) (maxRecords i0 y0 : Nat)
    (pre post : List (String × MDMetadata)) (owslibId : String) (iso : MDMetadata)
    (dcId : String)
    (hroom : y0 + countOk dcIds i0 pre < maxRecords)
    (hdc : dcIds.get? (i0 + pre.length) = some dcId) :
    (∀ isoId, iso.identifier = some isoId → isoId ≠ "" →
      isoId.startsWith "owslib_random_" = false → isoId ≠ dcId →
      ∃ it, (yieldRecordsWithStableIds dcIds maxRecords i0 y0
            (pre ++ (owslibId, iso) :: post)).get? pre.length = some it ∧
        it.carriedId = isoId ∧ it.misalignmentWarned = true) ∧
    (iso.identifier = Option.none →
      ∃ it, (yieldRecordsWithStableIds dcIds maxRecords i0 y0
            (pre ++ (owslibId, iso) :: post)).get? pre.length = some it ∧
        it.carriedId = dcId ∧ it.misalignmentWarned = false) := by
  have hstable : stableIdFor dcIds (i0 + pre.length) owslibId = dcId := by
    unfold stableIdFor
    rw [hdc]
    rfl
  have hmid := yieldRecords_get_middle dcIds maxRecords pre i0 y0 (owslibId, iso) post hroom
  constructor
  · intro isoId hids hne hplaceholder hneq
    have haligned : alignedId (stableIdFor dcIds (i0 + pre.length) owslibId) iso
        = (isoId, true) := by
      rw [hstable]
      simp [alignedId, hids, hne, hplaceholder, hneq]
    have hinj : injectId isoId iso = iso := by
      simp [injectId, pyTruthy, hids, hne]
    refine ⟨processItem dcIds (i0 + pre.length) owslibId iso, hmid, ?_, ?_⟩
    · cases hp : parseIsoRecord iso with
      | ok r =>
        have hidr : r.identifier = isoId := by
          have hr := parseIsoRecord_ok_identifier iso r hp
          rw [hids] at hr
          simpa using hr
        simp [processItem, haligned, hinj, hp, YieldedItem.carriedId, hidr]
      | error e =>
        cases e with
        | semanticError m =>
          simp [processItem, haligned, hinj, hp, YieldedItem.carriedId]
    · cases hp : parseIsoRecord iso with
      | ok r => simp [processItem, haligned, hinj, hp]
      | error e =>
        cases e with
        | semanticError m => simp [processItem, haligned, hinj, hp]
  · intro hids
    have haligned : alignedId (stableIdFor dcIds (i0 + pre.length) owslibId) iso
        = (dcId, false) := by
      rw [hstable]
      simp [alignedId, hids]
    have hinj : injectId dcId iso = { iso with identifier := some dcId } := by
      simp [injectId, pyTruthy, hids]
    refine ⟨processItem dcIds (i0 + pre.length) owslibId iso, hmid, ?_, ?_⟩
    · cases hp : parseIsoRecord { iso with identifier := some dcId } with
      | ok r =>
        have hidr : r.identifier = dcId := by
          have hr := parseIsoRecord_ok_identifier _ r hp
          simpa using hr
        simp [processItem, haligned, hinj, hp, YieldedItem.carriedId, hidr]
      | error e =>
        cases e with
        | semanticError m =>
          simp [processItem, haligned, hinj, hp, YieldedItem.carriedId]
    · cases hp : parseIsoRecord { iso with identifier := some dcId } with
      | ok r => simp [processItem, haligned, hinj, hp]
      | error e =>
        cases e with
        | semanticError m => simp [processItem, haligned, hinj, hp]

/-- C6 witness: DC page `["a", "b"]`, ISO page with identifiers
`["a", "c"]` (both parsable): the item yielded at index 1 carries "c" — the
ISO identifier, not the DC identifier "b" — with the misalignment warning
logged, reproducing the spec's alignment-mismatch scenario. -/
theorem C6_alignment_prefers_iso_id_witness :
    ∃ it,
      (yieldRecordsWithStableIds ["a", "b"] 10 0 0
          [("a", ⟨some "a", some ⟨PyStr.str "t", PyStr.str "ab"⟩⟩),
            ("c", ⟨some "c", some ⟨PyStr.str "t2", PyStr.str "ab2"⟩⟩)]).get? 1 = some it ∧
        it.carriedId = "c" ∧ it.misalignmentWarned = true :=
  (C6_alignment_prefers_iso_id ["a", "b"] 10 0 0
      [("a", ⟨some "a", some ⟨PyStr.str "t", PyStr.str "ab"⟩⟩)] [] "c"
      ⟨some "c", some ⟨PyStr.str "t2", PyStr.str "ab2"⟩⟩ "b" (by decide) rfl).1
    "c" rfl (by decide) (by decide) (by decide)

/-- C7 counterexample: a record with a single resource identifier whose
code is empty but whose codespace is "ISBN" gets no Publication at all —
the code requires a truthy `code` before evaluating the claimed condition
(mapper.py line 148: `if res_id.code and (...)`), while the claim's
condition (codespace contains "isbn" case-insensitively) holds for this
identifier and demands exactly one Publication. -/
theorem C7_counterexample :
    (InspireMap.mapInvestigation ⟨"T", [], [], [], [], [⟨"", some "ISBN"⟩]⟩).publications = [] ∧
    strContains (pyLower "ISBN") "isbn" = true := by
  constructor
  · rfl
  · decide

/-- C7 (amended): the mapped investigation contains exactly one Publication
per resource identifier whose code is non-empty and (starts with "10.", or
contains "doi" case-insensitively, or whose codespace contains "isbn"
case-insensitively); each such Publication's doi is that code, its title the
record title, and its authors string is built from the investigation's
contacts carrying a role named "author" (`None` exactly when there are no
such contacts; each entry is the last name, ", ", and the first initial
followed by "." when the person has a first name). -/
theorem C7_publications_amended (record : InspireMap.InspireRecord) :
    (InspireMap.mapInvestigation record).publications
        = (record.resourceIdentifiers.filter InspireMap.publicationCondition).map
            (fun rid =>
              ⟨record.title,
                InspireMap.authorsStringOf (InspireMap.mapInvestigation record).contacts,
                rid.code⟩) ∧
    (InspireMap.authorsStringOf (InspireMap.mapInvestigation record).contacts = Option.none
        ↔ (InspireMap.mapInvestigation record).contacts.filter
            (fun p => p.roles.contains "author") = []) := by
  constructor
  · show InspireMap.addPublications record (InspireMap.addContacts record) = _
    unfold InspireMap.addPublications
    rw [foldl_cond_append]
    simp [InspireMap.mapInvestigation]
  · rcases hf : (InspireMap.mapInvestigation record).contacts.filter
        (fun p => p.roles.contains "author") with _ | ⟨p, ps⟩
    · simp [InspireMap.authorsStringOf, hf]
    · simp [InspireMap.authorsStringOf, hf]

/-- C8: `map_investigation` maps a row with a non-null id whose rendering is
non-empty after trimming to an `ArcInvestigation` whose identifier is
`str(row["id"])`, whose absent title/description become empty strings, and
whose dates are the ISO-8601 renderings of the row's datetimes (absent when
the row value is null); a null id, or an id rendering that is empty or
whitespace-only, makes it raise instead. -/
theorem C8_map_investigation_contract (row : InvestigationRow) :
    (∀ v, row.id = some v → pyStrip v.render ≠ "" →
      SqlMap.mapInvestigation row =
        Except.ok ⟨v.render, row.title.getOrEmpty, row.description.getOrEmpty,
          row.submissionTime, row.releaseTime⟩) ∧
    (row.title = TextCell.absent → row.title.getOrEmpty = some "") ∧
    (row.description = TextCell.absent → row.description.getOrEmpty = some "") ∧
    (row.id = Option.none → ∃ msg, SqlMap.mapInvestigation row = Except.error msg) ∧
    (∀ v, row.id = some v → pyStrip v.render = "" →
      ∃ msg, SqlMap.mapInvestigation row = Except.error msg) := by
  refine ⟨?_, ?_, ?_, ?_, ?_⟩
  · intro v hv hne
    unfold SqlMap.mapInvestigation
    rw [hv]
    rw [if_neg hne]
  · intro h
    rw [h]
    rfl
  · intro h
    rw [h]
    rfl
  · intro h
    unfold SqlMap.mapInvestigation
    rw [h]
    exact ⟨_, rfl⟩
  · intro v hv htrim
    unfold SqlMap.mapInvestigation
    rw [hv]
    rw [if_pos htrim]
    exact ⟨_, rfl⟩

/-- C8 witness: a row with id "inv-7", absent title, NULL description and
one date maps to the expected investigation; a row whose id renders to
whitespace only raises. -/
theorem C8_map_investigation_contract_witness :
    SqlMap.mapInvestigation
        ⟨some (PyId.str "inv-7"), TextCell.absent, TextCell.null,
          some "2024-05-01T00:00:00", Option.none⟩
      = Except.ok ⟨"inv-7", some "", Option.none, some "2024-05-01T00:00:00", Option.none⟩ ∧
    (∃ msg,
      SqlMap.mapInvestigation
          ⟨some (PyId.str "   "), TextCell.absent, TextCell.absent, Option.none, Option.none⟩
        = Except.error msg) :=
  ⟨(C8_map_investigation_contract
        ⟨some (PyId.str "inv-7"), TextCell.absent, TextCell.null,
          some "2024-05-01T00:00:00", Option.none⟩).1
      (PyId.str "inv-7") rfl (by decide),
    (C8_map_investigation_contract
        ⟨some (PyId.str "   "), TextCell.absent, TextCell.absent,
          Option.none, Option.none⟩).2.2.2.2
      (PyId.str "   ") rfl (by decide)⟩

end FairagroMiddleware
